import Mathlib

/-!
Shallow embedding of the core logic of `src/agent/app.py` (a voice
interview agent): the job-configuration resolver (`resolve_prompt`,
`resolve_opening_message`), the style augmenter (`apply_speech_style`),
the streaming text normalizer (`normalize_tts_text` and its helper
`_strip_trailing_english`, embedded here as `strip_trailing_english`),
and the transcript event bridge (`extract_text`, `publish_chat`,
`on_user_transcribed`, `on_conversation_item_added`).

Strings are embedded as `List Char` (`Str`).  Python's `str.strip` family
is modelled over Python's whitespace set.  The regular expressions of the
source are modelled token for token AS THEY ARE WRITTEN: the source puts
`\\s` and `\\S` inside RAW string literals (`r"..."`), so the regex engine
receives two characters backslash-backslash-s, which is the regex
"escaped (literal) backslash, then the letter s" — NOT the whitespace
class.  The models below reproduce that effective behavior exactly; the
doc comment of each definition records the effective regex.
-/

/-- Strings are modelled as lists of characters. -/
abbrev Str := List Char

/-- Python whitespace, the set stripped by `str.strip()` / `str.rstrip()`
(the characters for which `str.isspace()` holds): U+0009..U+000D,
U+001C..U+001F, space, U+0085, U+00A0, U+1680, U+2000..U+200A, U+2028,
U+2029, U+202F, U+205F, U+3000. -/
def isPyWs (c : Char) : Bool :=
  let n := c.toNat
  (9 ≤ n && n ≤ 13) || (28 ≤ n && n ≤ 32) || n == 133 || n == 160 ||
    n == 5760 || (8192 ≤ n && n ≤ 8202) || n == 8232 || n == 8233 ||
    n == 8239 || n == 8287 || n == 12288

/-- Python `str.lstrip()`: drop leading whitespace. -/
def pyLstrip (s : Str) : Str := s.dropWhile isPyWs

/-- Python `str.rstrip()`: drop trailing whitespace. -/
def pyRstrip (s : Str) : Str := (s.reverse.dropWhile isPyWs).reverse

/-- Python `str.strip()`: drop leading and trailing whitespace. -/
def pystrip (s : Str) : Str := pyLstrip (pyRstrip s)

/-- Boolean prefix test on character lists. -/
def isPrefOf : Str → Str → Bool
  | [], _ => true
  | _ :: _, [] => false
  | c :: p, d :: s => c == d && isPrefOf p s

/-- Python's substring test `pat in s`. -/
def containsSub (pat : Str) : Str → Bool
  | [] => pat == []
  | c :: rest => isPrefOf pat (c :: rest) || containsSub pat rest

/-- Number of positions of `s` at which `pat` occurs (as a prefix of the
suffix of `s` starting there). -/
def occCount (pat : Str) : Str → Nat
  | [] => 0
  | c :: rest => (if isPrefOf pat (c :: rest) then 1 else 0) + occCount pat rest

/-- The default instruction prompt, `DEFAULT_INTERVIEW_PROMPT` of
`src/agent/app.py` lines 32-43 (Python adjacent-literal concatenation). -/
def DEFAULT_INTERVIEW_PROMPT : Str :=
  ("あなたは日本語で話す面接官の人工知能です。" ++
   "目的は候補者の経験と考え方を短時間で把握することです。" ++
   "質問は大きく三つだけにします。" ++
   "各質問では候補者の回答をよく聞き、重要度が高い点を1つ選び、2〜3回だけ深掘りします。" ++
   "口調は丁寧で落ち着いていて、短く分かりやすく話します。" ++
   "分からない点は推測せず確認してください。" ++
   "最後に要点を短くまとめて終了してください。\n\n" ++
   "本質問1: 最近の仕事やプロジェクトで、主担当として成果を出した取り組みを一つ教えてください。\n" ++
   "本質問2: 難しい状況やトラブルに直面したとき、どうやって立て直しましたか。具体例で教えてください。\n" ++
   "本質問3: 次の職場や役割で実現したいことは何ですか。").data

/-- The speech-style constraint block, `SPEECH_STYLE_SUFFIX` of
`src/agent/app.py` lines 45-53. -/
def SPEECH_STYLE_SUFFIX : Str :=
  ("\n\n# 発話ルール\n" ++
   "・1文は短く、20〜30文字程度にする。\n" ++
   "・句読点を多めに入れる。\n" ++
   "・英語は使わず、日本語のみで話す（固有名詞は最小限）。\n" ++
   "・文末に英語の挨拶や付け足しを入れない。\n" ++
   "・難しい言い回しは避け、話し言葉で説明する。\n" ++
   "・丁寧語で落ち着いて話す。").data

/-- The marker heading tested by `apply_speech_style`
(the Python expression is the substring test of this literal). -/
def STYLE_MARKER : Str := ("# 発話ルール").data

/-- Embedding of `apply_speech_style` (`src/agent/app.py` lines 56-59):
if the marker heading already occurs in the prompt return it unchanged,
otherwise return the f-string of `prompt.strip()` followed by the suffix. -/
def apply_speech_style (prompt : Str) : Str :=
  if containsSub STYLE_MARKER prompt then prompt
  else pystrip prompt ++ SPEECH_STYLE_SUFFIX

/-- Python `str.replace(a, b)` for a single-character pattern: replace
every occurrence of the character `a` by `b`. -/
def pyReplaceChar (a b : Char) (s : Str) : Str :=
  s.map (fun c => if c = a then b else c)

/-- The character class of `re.search(r"[\u3040-\u30ff\u4e00-\u9fff]", text)`
in `_strip_trailing_english`: Hiragana/Katakana and the CJK unified block. -/
def isJp (c : Char) : Bool :=
  let n := c.toNat
  (0x3040 ≤ n && n ≤ 0x30FF) || (0x4E00 ≤ n && n ≤ 0x9FFF)

/-- ASCII letter, the class `[A-Za-z]`. -/
def isAsciiLetter (c : Char) : Bool :=
  let n := c.toNat
  (65 ≤ n && n ≤ 90) || (97 ≤ n && n ≤ 122)

/-- ASCII digit, the class `[0-9]`. -/
def isAsciiDigit (c : Char) : Bool :=
  let n := c.toNat
  48 ≤ n && n ≤ 57

/-- The class `[A-Za-z0-9\\s,.'"!?-]` of `tail_pattern` / `fallback_pattern`
as the regex engine sees it: letters, digits, a literal backslash (92),
the letter s (115, already a letter), comma (44), period (46),
apostrophe (39), double quote (34), bang (33), question mark (63),
hyphen (45).  In a raw Python string `\\s` inside a class contributes the
two members backslash and s, not the whitespace class. -/
def isC1 (c : Char) : Bool :=
  isAsciiLetter c || isAsciiDigit c ||
    (let n := c.toNat
     n == 92 || n == 115 || n == 44 || n == 46 || n == 39 || n == 34 ||
       n == 33 || n == 63 || n == 45)

/-- The class `[A-Za-z0-9'"!?-]` of `glued_pattern`: letters, digits,
apostrophe (39), double quote (34), bang (33), question mark (63),
hyphen (45). -/
def isC2 (c : Char) : Bool :=
  isAsciiLetter c || isAsciiDigit c ||
    (let n := c.toNat
     n == 39 || n == 34 || n == 33 || n == 63 || n == 45)

/-- The class `[\\s　]` of `fallback_pattern` as the engine sees it:
a literal backslash (92), the letter s (115), and the ideographic space
U+3000 (12288) — not general whitespace. -/
def isS2 (c : Char) : Bool :=
  let n := c.toNat
  n == 92 || n == 115 || n == 12288

/-- Terminal sentence punctuation, the class `[。！？]`. -/
def isPunct3 (c : Char) : Bool :=
  c == '。' || c == '！' || c == '？'

/-- The regex tail `s*$` (after the mandatory literal backslash of `\\s*$`
has been consumed): zero or more letters s, then `$`, which in Python
(no MULTILINE) matches at the end of the string or just before a final
newline. -/
def endDollar : Str → Bool
  | [] => true
  | ['\n'] => true
  | 's' :: rest => endDollar rest
  | _ => false

/-- The regex tail `\\s*$` as the engine sees it: one literal backslash,
then zero or more letters s, then `$`. -/
def tailEnd : Str → Bool
  | '\\' :: v => endDollar v
  | _ => false

/-- After the leading `[A-Za-z]` of a captured run: consume at least
`need` more characters of the class `cls` (the `{4,}` / `{6,}` repetition,
greedy or not — only matchability is used), then the tail `\\s*$`.
Tries every stopping point, so it is exactly regex matchability. -/
def afterClass (cls : Char → Bool) : Nat → Str → Bool
  | _, [] => false
  | need, c :: rest =>
    (need == 0 && tailEnd (c :: rest)) || (cls c && afterClass cls (need - 1) rest)

/-- After the literal backslash of `\\s*([A-Za-z][A-Za-z0-9\\s,.'"!?-]{4,})\\s*$`
in `tail_pattern`: zero or more letters s, then a letter starting the
captured run of at least five characters, then `\\s*$`.  Because s is
itself a letter, both readings of an s are tried. -/
def scanS : Str → Bool
  | [] => false
  | c :: rest =>
    (isAsciiLetter c && afterClass isC1 4 rest) || (c == 's' && scanS rest)

/-- Matchability of the part of `tail_pattern` that follows the captured
`(.*?[。！？])`: the effective regex is
`\\s*([A-Za-z][A-Za-z0-9\\s,.'"!?-]{4,})\\s*$` where `\\` is a literal
backslash (doubled backslash inside a raw string). -/
def matchesAfterPunct : Str → Bool
  | '\\' :: v => scanS v
  | _ => false

/-- Group 1 of `tail_pattern.match(text)` when it matches
(`src/agent/app.py` lines 76-82).  Pattern as the engine sees it:
`(.*?[。！？])\\s*([A-Za-z][A-Za-z0-9\\s,.'"!?-]{4,})\\s*$` with `re.S`.
The lazy `.*?` makes group 1 end at the FIRST terminal-punctuation
position whose remainder matches the rest of the pattern. -/
def tailFind : Str → Option Str
  | [] => none
  | c :: rest =>
    if isPunct3 c && matchesAfterPunct rest then some [c]
    else (tailFind rest).map (fun g => c :: g)

/-- After at least one `[\\s　]` character of `fallback_pattern`: further
`[\\s　]` characters, or the captured run `[A-Za-z][A-Za-z0-9\\s,.'"!?-]{6,}`
followed by `\\s*$`. -/
def fbAfterSpace : Str → Bool
  | [] => false
  | c :: rest =>
    (isAsciiLetter c && afterClass isC1 6 rest) || (isS2 c && fbAfterSpace rest)

/-- Matchability of the part of `fallback_pattern` that follows the
captured `(.*?)`: effective regex
`[\\s　]+([A-Za-z][A-Za-z0-9\\s,.'"!?-]{6,})\\s*$`. -/
def matchesFallbackFrom : Str → Bool
  | [] => false
  | c :: rest => isS2 c && fbAfterSpace rest

/-- Group 1 of `fallback_pattern.match(text)` when it matches
(`src/agent/app.py` lines 83-89).  Pattern as the engine sees it:
`(.*?)[\\s　]+([A-Za-z][A-Za-z0-9\\s,.'"!?-]{6,})\\s*$` with `re.S`;
the lazy group 1 is the shortest prefix whose remainder matches. -/
def fallbackFind : Str → Option Str
  | [] => none
  | c :: rest =>
    if matchesFallbackFrom (c :: rest) then some []
    else (fallbackFind rest).map (fun g => c :: g)

/-- Matchability of the part of `glued_pattern` that follows the captured
`(.*?[\u3040-\u30ff\u4e00-\u9fff])`: effective regex
`([A-Za-z][A-Za-z0-9'"!?-]{4,})\\s*$`. -/
def matchesGluedAfter : Str → Bool
  | [] => false
  | c :: rest => isAsciiLetter c && afterClass isC2 4 rest

/-- Group 1 of `glued_pattern.match(text)` when it matches
(`src/agent/app.py` lines 90-96).  Pattern as the engine sees it:
`(.*?[\u3040-\u30ff\u4e00-\u9fff])([A-Za-z][A-Za-z0-9'"!?-]{4,})\\s*$`
with `re.S`; group 1 ends at the first Japanese character whose
remainder matches. -/
def gluedFind : Str → Option Str
  | [] => none
  | c :: rest =>
    if isJp c && matchesGluedAfter rest then some [c]
    else (gluedFind rest).map (fun g => c :: g)

/-- Embedding of `_strip_trailing_english` (`src/agent/app.py` lines
72-97): return the text unchanged unless it contains a Japanese
character; otherwise try `tail_pattern` (return group 1), then
`fallback_pattern` (group 1 right-stripped), then `glued_pattern`
(group 1 right-stripped), else return the text unchanged. -/
def strip_trailing_english (text : Str) : Str :=
  if text.any isJp then
    match tailFind text with
    | some g => g
    | none =>
      match fallbackFind text with
      | some g => pyRstrip g
      | none =>
        match gluedFind text with
        | some g => pyRstrip g
        | none => text
  else text

/-- The lookahead `(?=\\S)` as the engine sees it: the next two
characters are a literal backslash and a capital S. -/
def lookaheadBS : Str → Bool
  | '\\' :: 'S' :: _ => true
  | _ => false

/-- Embedding of `re.sub(r"([。！？])(?=\\S)", r"\\1\n", normalized)`
(`src/agent/app.py` line 67) with the replacement template as the engine
sees it: the template characters are backslash-backslash-1-newline, which
the substitution engine renders as a LITERAL backslash, the digit 1, and
a newline (not a group reference).  Each terminal punctuation mark that
is followed by the two characters backslash S is replaced by those three
characters. -/
def insertBreaks : Str → Str
  | [] => []
  | c :: rest =>
    if isPunct3 c && lookaheadBS rest then '\\' :: '1' :: '\n' :: insertBreaks rest
    else c :: insertBreaks rest

/-- Render a finished run of `n` consecutive newlines under
`re.sub(r"\n{3,}", "\n\n", ...)`: a run of three or more newlines
collapses to exactly two, shorter runs are kept. -/
def emitNl (n : Nat) : Str :=
  if 3 ≤ n then ['\n', '\n'] else List.replicate n '\n'

/-- Scanner for `re.sub(r"\n{3,}", "\n\n", ...)`: `pending` counts the
newlines of the current run. -/
def collapseGo : Nat → Str → Str
  | pending, [] => emitNl pending
  | pending, c :: rest =>
    if c = '\n' then collapseGo (pending + 1) rest
    else emitNl pending ++ c :: collapseGo 0 rest

/-- Embedding of `re.sub(r"\n{3,}", "\n\n", normalized)`
(`src/agent/app.py` line 68; this raw string has a single backslash, so
it is the genuine newline class): every maximal run of three or more
newlines becomes exactly two. -/
def collapseNewlines (s : Str) : Str := collapseGo 0 s

/-- Embedding of `normalize_tts_text` (`src/agent/app.py` lines 62-69):
empty text is returned as is; otherwise replace ASCII question and bang
marks by their full-width forms, strip a trailing English fragment, run
the two `re.sub` passes. -/
def normalize_tts_text (text : Str) : Str :=
  if text = [] then text
  else
    collapseNewlines (insertBreaks (strip_trailing_english
      (pyReplaceChar '!' '！' (pyReplaceChar '?' '？' text))))

/-- Embedding of the fragment loop of `DefaultInterviewAgent.tts_node`
(`src/agent/app.py` lines 109-114): the async generator consumes the
finite ordered fragment stream and yields `normalize_tts_text` of each
chunk, one in, one out. -/
def tts_node (frags : List Str) : List Str :=
  frags.map normalize_tts_text

/-- The shape of a parsed Python JSON value, as far as the resolver code
can observe it: the code only tests `isinstance(parsed, dict)` and
`isinstance(field, str)`, so objects and strings are kept and every other
JSON value (null, booleans, numbers, arrays) is collapsed into `other`. -/
inductive PyJson where
  | str (s : Str)
  | obj (fields : List (Str × PyJson))
  | other

/-- Python `dict.get(key)` on the object produced by `json.loads`
(whose keys are unique, later duplicates in the JSON text having
overwritten earlier ones): first binding of the key, if any. -/
def dictGet (fs : List (Str × PyJson)) (k : Str) : Option PyJson :=
  match fs with
  | [] => none
  | (k2, v) :: rest => if k2 = k then some v else dictGet rest k

/-- The field name probed by `resolve_prompt`. -/
def PROMPT_KEY : Str := ("prompt").data

/-- The field name probed by `resolve_opening_message`. -/
def OPENING_KEY : Str := ("openingMessage").data

/-- Embedding of `resolve_prompt` (`src/agent/app.py` lines 117-132).
The call `json.loads(metadata)` is a Python standard-library call, so it
enters the embedding as the second argument: `parsed = none` models a
`JSONDecodeError`, `parsed = some v` a successful parse producing `v`
(the source only parses when the metadata is non-empty, and the empty or
blank string never parses successfully).  Control flow is mirrored
branch by branch: when the metadata is truthy, a dict parse with a
non-blank string `prompt` field wins; otherwise a non-blank raw metadata
is used literally; otherwise the default prompt.  Every result passes
through `apply_speech_style`. -/
def resolve_prompt (metadata : Str) (parsed : Option PyJson) : Str :=
  if metadata = [] then apply_speech_style DEFAULT_INTERVIEW_PROMPT
  else
    match parsed with
    | some (PyJson.obj fs) =>
      (match dictGet fs PROMPT_KEY with
       | some (PyJson.str p) =>
         if pystrip p = [] then
           (if pystrip metadata = [] then apply_speech_style DEFAULT_INTERVIEW_PROMPT
            else apply_speech_style (pystrip metadata))
         else apply_speech_style (pystrip p)
       | _ =>
         if pystrip metadata = [] then apply_speech_style DEFAULT_INTERVIEW_PROMPT
         else apply_speech_style (pystrip metadata))
    | _ =>
      if pystrip metadata = [] then apply_speech_style DEFAULT_INTERVIEW_PROMPT
      else apply_speech_style (pystrip metadata)

/-- Embedding of `resolve_opening_message` (`src/agent/app.py` lines
135-149), with the `json.loads` result passed in as for
`resolve_prompt`: empty metadata or a failed parse gives `none`; a dict
parse with a non-blank string `openingMessage` field gives the trimmed
value; anything else gives `none`. -/
def resolve_opening_message (metadata : Str) (parsed : Option PyJson) : Option Str :=
  if metadata = [] then none
  else
    match parsed with
    | none => none
    | some (PyJson.obj fs) =>
      (match dictGet fs OPENING_KEY with
       | some (PyJson.str om) =>
         if pystrip om = [] then none else some (pystrip om)
       | _ => none)
    | some _ => none

/-- A value handed to `publish_chat`, as far as `extract_text` can
observe it: either a Python string, or an object whose `text`, `content`
and `message` attributes each may hold a string (`some s`) or not
(`none`: attribute absent or of non-string type), with `asString` the
generic `str(message)` rendering used when no string attribute is found. -/
inductive PyMessage where
  | pystr (s : Str)
  | pyobj (text content message : Option Str) (asString : Str)
deriving DecidableEq

/-- Embedding of the inner `extract_text` (`src/agent/app.py` lines
226-233): a string is returned as is; otherwise the attributes `text`,
`content`, `message` are probed in order for a string value; otherwise
the generic string conversion is used. -/
def extract_text : PyMessage → Str
  | PyMessage.pystr s => s
  | PyMessage.pyobj t c m fb =>
    match t with
    | some s => s
    | none =>
      match c with
      | some s => s
      | none =>
        match m with
        | some s => s
        | none => fb

/-- Embedding of `publish_chat` (`src/agent/app.py` lines 235-247).  The
extracted text is stripped; a blank result sends nothing (`none`); a
non-blank result is wrapped into the transcript message
`{"role": role, "text": text}` handed to the fire-and-forget publisher,
modelled as the `(role, text)` pair (serialization and the outbound
channel are external collaborators). -/
def publish_chat (role : Str) (message : PyMessage) : Option (Str × Str) :=
  let text := pystrip (extract_text message)
  if text = [] then none else some (role, text)

/-- A `user_input_transcribed` event as far as the handler reads it:
`is_final` (absent defaults to false) and the `transcript` attribute,
`none` when the event lacks the field (the source then uses the getattr
default, the empty string). -/
structure UserTranscribedEvent where
  is_final : Bool
  transcript : Option Str
deriving DecidableEq

/-- Embedding of `on_user_transcribed` (`src/agent/app.py` lines
251-253): on a final transcription, publish the transcript (or the empty
string when the field is missing) as the candidate role; otherwise do
nothing. -/
def on_user_transcribed (ev : UserTranscribedEvent) : Option (Str × Str) :=
  if ev.is_final then
    publish_chat (("candidate").data) (PyMessage.pystr (ev.transcript.getD []))
  else none

/-- A conversation item as far as the handler reads it: the `role`
attribute (`none` when absent or not a string) and `text_content`
(`none` models both an absent attribute and a `None` value, which the
source maps to the empty string with `text or ""`). -/
structure ConversationItem where
  role : Option Str
  text_content : Option Str
deriving DecidableEq

/-- A `conversation_item_added` event: its `item` attribute, `none` when
absent (the source then reads `role` off `None` via getattr defaults). -/
structure ConversationItemEvent where
  item : Option ConversationItem
deriving DecidableEq

/-- Embedding of `on_conversation_item_added` (`src/agent/app.py` lines
255-260): when the item's role is the string assistant, publish its text
content (with `None` replaced by the empty string) as the interviewer
role; otherwise do nothing. -/
def on_conversation_item_added (ev : ConversationItemEvent) : Option (Str × Str) :=
  match ev.item with
  | none => none
  | some item =>
    if item.role = some (("assistant").data) then
      publish_chat (("interviewer").data) (PyMessage.pystr (item.text_content.getD []))
    else none

/-- Spec-side description (claim C1): the usable prompt carried by a
parse result — the parse succeeded with an object whose `prompt` field
is a string with non-blank trimmed content; the value is that trimmed
content. -/
def goodPromptOf : Option PyJson → Option Str
  | some (PyJson.obj fs) =>
    (match dictGet fs PROMPT_KEY with
     | some (PyJson.str p) => if pystrip p = [] then none else some (pystrip p)
     | _ => none)
  | _ => none

/-- Spec-side description (claim C6): the usable opening message carried
by a parse result — the parse succeeded with an object whose
`openingMessage` field is a string with non-blank trimmed content; the
value is that trimmed content. -/
def goodOpeningOf : Option PyJson → Option Str
  | some (PyJson.obj fs) =>
    (match dictGet fs OPENING_KEY with
     | some (PyJson.str om) => if pystrip om = [] then none else some (pystrip om)
     | _ => none)
  | _ => none

/-- A list is a prefix of itself. -/
theorem isPrefOf_refl (s : Str) : isPrefOf s s = true := by
  induction s with
  | nil => rfl
  | cons c rest ih => simp [isPrefOf, ih]

/-- Characterisation of the boolean prefix test. -/
theorem isPrefOf_iff (p s : Str) : isPrefOf p s = true ↔ ∃ t, s = p ++ t := by
  induction p generalizing s with
  | nil => simp [isPrefOf]
  | cons c p ih =>
    cases s with
    | nil => simp [isPrefOf]
    | cons d s =>
      simp only [isPrefOf, Bool.and_eq_true, beq_iff_eq, ih, List.cons_append,
        List.cons.injEq]
      constructor
      · rintro ⟨rfl, t, rfl⟩
        exact ⟨t, rfl, rfl⟩
      · rintro ⟨t, rfl, rfl⟩
        exact ⟨rfl, t, rfl⟩

/-- Characterisation of the substring test: an occurrence is a split of
the string around the pattern. -/
theorem containsSub_iff (pat s : Str) :
    containsSub pat s = true ↔ ∃ A B, s = A ++ pat ++ B := by
  induction s with
  | nil =>
    simp only [containsSub, beq_iff_eq]
    constructor
    · rintro rfl
      exact ⟨[], [], rfl⟩
    · rintro ⟨A, B, hAB⟩
      rcases List.append_eq_nil.mp (List.append_eq_nil.mp hAB.symm).1 with ⟨-, h2⟩
      exact h2
  | cons c rest ih =>
    simp only [containsSub, Bool.or_eq_true, isPrefOf_iff, ih]
    constructor
    · rintro (⟨t, ht⟩ | ⟨A, B, hAB⟩)
      · exact ⟨[], t, by simpa using ht⟩
      · exact ⟨c :: A, B, by simp [hAB]⟩
    · rintro ⟨A, B, hAB⟩
      cases A with
      | nil => exact Or.inl ⟨B, by simpa using hAB⟩
      | cons a A =>
        simp only [List.cons_append, List.cons.injEq] at hAB
        exact Or.inr ⟨A, B, hAB.2⟩

/-- A string without an occurrence of the pattern has occurrence count
zero. -/
theorem occCount_eq_zero (pat s : Str) (h : containsSub pat s = false) :
    occCount pat s = 0 := by
  induction s with
  | nil => rfl
  | cons c rest ih =>
    have h2 : isPrefOf pat (c :: rest) = false ∧ containsSub pat rest = false := by
      simpa [containsSub] using h
    simp [occCount, h2.1, ih h2.2]

/-- A prefix of an appended list is a prefix of the left part or spills
over into the right part. -/
theorem isPrefOf_append_cases (m A S : Str) (h : isPrefOf m (A ++ S) = true) :
    isPrefOf m A = true ∨ ∃ m2, m = A ++ m2 ∧ isPrefOf m2 S = true := by
  induction A generalizing m with
  | nil => exact Or.inr ⟨m, rfl, h⟩
  | cons a A ih =>
    cases m with
    | nil => exact Or.inl rfl
    | cons b m =>
      simp only [List.cons_append, isPrefOf, Bool.and_eq_true, beq_iff_eq] at h
      obtain ⟨rfl, h2⟩ := h
      rcases ih m h2 with h3 | ⟨m2, rfl, h4⟩
      · exact Or.inl (by simp [isPrefOf, h3])
      · exact Or.inr ⟨m2, by simp, h4⟩

/-- Appending a block whose first character does not occur in the
pattern, after a string free of the pattern, contributes no new
occurrences: the count over the concatenation is the count over the
block. -/
theorem occCount_append_sep (m A S : Str) (c0 : Char) (S2 : Str)
    (hS : S = c0 :: S2) (hc0 : c0 ∈ m → False) (hA : containsSub m A = false) :
    occCount m (A ++ S) = occCount m S := by
  induction A with
  | nil => rfl
  | cons a A ih =>
    have h2 : isPrefOf m (a :: A) = false ∧ containsSub m A = false := by
      simpa [containsSub] using hA
    have hnp : isPrefOf m ((a :: A) ++ S) = false := by
      cases hb : isPrefOf m ((a :: A) ++ S) with
      | false => rfl
      | true =>
        exfalso
        rcases isPrefOf_append_cases m (a :: A) S hb with h3 | ⟨m2, hm2, h4⟩
        · rw [h2.1] at h3
          cases h3
        · cases m2 with
          | nil =>
            rw [List.append_nil] at hm2
            rw [hm2, isPrefOf_refl] at h2
            cases h2.1
          | cons d m2 =>
            have hd : d = c0 := by
              rw [hS] at h4
              have := (by simpa [isPrefOf] using h4 : d = c0 ∧ isPrefOf m2 S2 = true)
              exact this.1
            apply hc0
            rw [hm2, hd]
            simp
    calc occCount m ((a :: A) ++ S)
        = (if isPrefOf m (a :: (A ++ S)) then 1 else 0) + occCount m (A ++ S) := rfl
      _ = occCount m S := by
          rw [List.cons_append] at hnp
          simp [hnp, ih h2.2]

/-- The stripped string sits inside the original between two runs of
Python whitespace. -/
theorem pystrip_decomp (p : Str) :
    ∃ lead trail, (∀ c ∈ lead, isPyWs c = true) ∧ (∀ c ∈ trail, isPyWs c = true) ∧
      p = lead ++ pystrip p ++ trail := by
  refine ⟨(pyRstrip p).takeWhile isPyWs, (p.reverse.takeWhile isPyWs).reverse,
    ?_, ?_, ?_⟩
  · intro c hc
    exact List.mem_takeWhile_imp hc
  · intro c hc
    rw [List.mem_reverse] at hc
    exact List.mem_takeWhile_imp hc
  · have h1 : pyRstrip p ++ (p.reverse.takeWhile isPyWs).reverse = p := by
      unfold pyRstrip
      rw [← List.reverse_append, List.takeWhile_append_dropWhile, List.reverse_reverse]
    have h2 : (pyRstrip p).takeWhile isPyWs ++ pystrip p = pyRstrip p := by
      unfold pystrip pyLstrip
      exact List.takeWhile_append_dropWhile isPyWs (pyRstrip p)
    calc p = pyRstrip p ++ (p.reverse.takeWhile isPyWs).reverse := h1.symm
      _ = ((pyRstrip p).takeWhile isPyWs ++ pystrip p) ++
            (p.reverse.takeWhile isPyWs).reverse := by rw [h2]
      _ = (pyRstrip p).takeWhile isPyWs ++ pystrip p ++
            (p.reverse.takeWhile isPyWs).reverse := by rw [List.append_assoc]

/-- An occurrence in the right part of an append is an occurrence in the
whole. -/
theorem containsSub_append_right (pat x s : Str) (h : containsSub pat s = true) :
    containsSub pat (x ++ s) = true := by
  induction x with
  | nil => simpa using h
  | cons a x ih => simp [containsSub, ih]

/-- Stripping cannot create an occurrence of the marker. -/
theorem containsSub_pystrip (p : Str) (h : containsSub STYLE_MARKER p = false) :
    containsSub STYLE_MARKER (pystrip p) = false := by
  cases hb : containsSub STYLE_MARKER (pystrip p) with
  | false => rfl
  | true =>
    exfalso
    rcases (containsSub_iff STYLE_MARKER (pystrip p)).mp hb with ⟨A, B, hAB⟩
    rcases pystrip_decomp p with ⟨lead, trail, -, -, hp⟩
    have : containsSub STYLE_MARKER p = true := by
      refine (containsSub_iff STYLE_MARKER p).mpr ⟨lead ++ A, B ++ trail, ?_⟩
      rw [hp, hAB]
      simp
    rw [h] at this
    cases this

set_option maxRecDepth 8000

/-- The marker occurs in every output of the style augmenter. -/
theorem apply_contains_marker (p : Str) :
    containsSub STYLE_MARKER (apply_speech_style p) = true := by
  by_cases hc : containsSub STYLE_MARKER p = true
  · simp [apply_speech_style, hc]
  · have hc2 : containsSub STYLE_MARKER p = false := by
      cases h : containsSub STYLE_MARKER p with
      | true => exact absurd h hc
      | false => rfl
    rw [apply_speech_style, if_neg (by simp [hc2])]
    exact containsSub_append_right STYLE_MARKER (pystrip p) SPEECH_STYLE_SUFFIX
      (by decide)

/-- The style augmenter keeps the marker count at most one. -/
theorem occCount_apply_le (p : Str) (h : occCount STYLE_MARKER p ≤ 1) :
    occCount STYLE_MARKER (apply_speech_style p) ≤ 1 := by
  by_cases hc : containsSub STYLE_MARKER p = true
  · simpa [apply_speech_style, hc] using h
  · have hc2 : containsSub STYLE_MARKER p = false := by
      cases h2 : containsSub STYLE_MARKER p with
      | true => exact absurd h2 hc
      | false => rfl
    rw [apply_speech_style, if_neg (by simp [hc2])]
    rw [occCount_append_sep STYLE_MARKER (pystrip p) SPEECH_STYLE_SUFFIX
      (Char.ofNat 10) SPEECH_STYLE_SUFFIX.tail (by decide) (by decide)
      (containsSub_pystrip p hc2)]
    decide

/-- The two character replacements of `normalize_tts_text` cannot create
a Japanese character. -/
theorem isJp_replace (s : Str) (h : s.any isJp = false) :
    (pyReplaceChar '!' '！' (pyReplaceChar '?' '？' s)).any isJp = false := by
  induction s with
  | nil => rfl
  | cons c rest ih =>
    have h2 : isJp c = false ∧ rest.any isJp = false := by
      simpa [List.any_cons] using h
    have hc : isJp (if (if c = '?' then '？' else c) = '!' then '！'
        else (if c = '?' then '？' else c)) = false := by
      by_cases hq : c = '?'
      · simp only [hq, if_pos rfl]
        decide
      · by_cases hb : c = '!'
        · simp only [if_neg hq, hb, if_pos rfl]
          decide
        · simp [hq, hb, h2.1]
    simpa [pyReplaceChar, List.any_cons, hc] using ih h2.2

/-- C1: for every metadata string, if it parses as a JSON object whose
`prompt` field is a string with non-blank trimmed content,
`resolve_prompt` returns that trimmed value passed through the style
augmenter; otherwise, if the raw metadata is non-blank after trimming,
it returns the trimmed raw metadata styled; otherwise it returns the
built-in default prompt styled.  The hypothesis records the only link to
the external JSON parser the claim needs: the empty string never parses
successfully. -/
theorem resolve_prompt_resolution (md : Str) (parsed : Option PyJson)
    (hparse : md = [] → parsed = none) :
    resolve_prompt md parsed =
      match goodPromptOf parsed with
      | some p => apply_speech_style p
      | none =>
        if pystrip md = [] then apply_speech_style DEFAULT_INTERVIEW_PROMPT
        else apply_speech_style (pystrip md) := by
  by_cases hmd : md = []
  · subst hmd
    rw [hparse rfl]
    simp [resolve_prompt, goodPromptOf, pystrip, pyLstrip, pyRstrip]
  · cases parsed with
    | none => simp [resolve_prompt, goodPromptOf, hmd]
    | some v =>
      cases v with
      | str s => simp [resolve_prompt, goodPromptOf, hmd]
      | other => simp [resolve_prompt, goodPromptOf, hmd]
      | obj fs =>
        cases hg : dictGet fs PROMPT_KEY with
        | none => simp [resolve_prompt, goodPromptOf, hmd, hg]
        | some v2 =>
          cases v2 with
          | str p =>
            by_cases hp : pystrip p = []
            · simp [resolve_prompt, goodPromptOf, hmd, hg, hp]
            · simp [resolve_prompt, goodPromptOf, hmd, hg, hp]
          | obj fs2 => simp [resolve_prompt, goodPromptOf, hmd, hg]
          | other => simp [resolve_prompt, goodPromptOf, hmd, hg]

/-- Witness for C1 at the spec's own example: a JSON object with
prompt field holding two-sided padding resolves to the trimmed, styled
prompt. -/
theorem resolve_prompt_resolution_witness :
    resolve_prompt
        (("\x7b\"prompt\": \"  Hello  \", \"openingMessage\": \"Hi there\"\x7d").data)
        (some (PyJson.obj [(PROMPT_KEY, PyJson.str (("  Hello  ").data)),
          (OPENING_KEY, PyJson.str (("Hi there").data))])) =
      apply_speech_style (("Hello").data) := by
  have h := resolve_prompt_resolution
    (("\x7b\"prompt\": \"  Hello  \", \"openingMessage\": \"Hi there\"\x7d").data)
    (some (PyJson.obj [(PROMPT_KEY, PyJson.str (("  Hello  ").data)),
      (OPENING_KEY, PyJson.str (("Hi there").data))]))
    (by intro hc; exact absurd hc (by decide))
  exact h.trans (by decide)

/-- C6: `resolve_opening_message` returns absent when the metadata is
empty, when it fails to parse, or when it parses to a non-object (never
falling back to the raw text); it returns the trimmed `openingMessage`
field when that is a string with non-blank trimmed content, and absent
in every other case. -/
theorem resolve_opening_message_resolution (md : Str) (parsed : Option PyJson) :
    resolve_opening_message md parsed =
      if md = [] then none else goodOpeningOf parsed := by
  by_cases hmd : md = []
  · simp [resolve_opening_message, hmd]
  · cases parsed with
    | none => simp [resolve_opening_message, goodOpeningOf, hmd]
    | some v =>
      cases v with
      | str s => simp [resolve_opening_message, goodOpeningOf, hmd]
      | other => simp [resolve_opening_message, goodOpeningOf, hmd]
      | obj fs =>
        cases hg : dictGet fs OPENING_KEY with
        | none => simp [resolve_opening_message, goodOpeningOf, hmd, hg]
        | some v2 =>
          cases v2 with
          | str om =>
            by_cases ho : pystrip om = []
            · simp [resolve_opening_message, goodOpeningOf, hmd, hg, ho]
            · simp [resolve_opening_message, goodOpeningOf, hmd, hg, ho]
          | obj fs2 => simp [resolve_opening_message, goodOpeningOf, hmd, hg]
          | other => simp [resolve_opening_message, goodOpeningOf, hmd, hg]

/-- C4: the style augmenter is idempotent, and starting from a prompt in
which the marker heading occurs at most once, any number of augmentation
passes leaves the marker occurring at most once. -/
theorem apply_speech_style_idempotent (p : Str) :
    apply_speech_style (apply_speech_style p) = apply_speech_style p ∧
    ∀ n : Nat, occCount STYLE_MARKER p ≤ 1 →
      occCount STYLE_MARKER (Nat.iterate apply_speech_style n p) ≤ 1 := by
  constructor
  · have hm := apply_contains_marker p
    have hdef : apply_speech_style (apply_speech_style p) =
        if containsSub STYLE_MARKER (apply_speech_style p) then apply_speech_style p
        else pystrip (apply_speech_style p) ++ SPEECH_STYLE_SUFFIX := rfl
    rw [hdef, if_pos hm]
  · intro n
    induction n with
    | zero => intro h; simpa using h
    | succ n ih =>
      intro h
      rw [Function.iterate_succ_apply']
      exact occCount_apply_le _ (ih h)

/-- Witness for C4: the marker occurs at most once in a concrete plain
prompt, and still at most once after two augmentation passes. -/
theorem apply_speech_style_idempotent_witness :
    occCount STYLE_MARKER (("abc").data) ≤ 1 ∧
    occCount STYLE_MARKER (Nat.iterate apply_speech_style 2 (("abc").data)) ≤ 1 :=
  ⟨by decide, (apply_speech_style_idempotent (("abc").data)).2 2 (by decide)⟩

/-- C9 counterexample: the claim says only TRAILING whitespace is
trimmed before the style block is appended, so on a marker-free prompt
with leading whitespace the output would be the unchanged input followed
by the block; the code strips BOTH ends, so the output differs. -/
theorem apply_speech_style_trims_leading_counterexample :
    apply_speech_style (("  hi").data) ≠ ("  hi").data ++ SPEECH_STYLE_SUFFIX := by
  decide

/-- C9 amended: for every prompt without the marker heading,
`apply_speech_style` trims BOTH leading and trailing whitespace
(interior content unchanged) and appends the fixed style block,
separated by the blank line the block starts with. -/
theorem apply_speech_style_appends_after_strip (p : Str)
    (h : containsSub STYLE_MARKER p = false) :
    ∃ lead trail,
      (∀ c ∈ lead, isPyWs c = true) ∧ (∀ c ∈ trail, isPyWs c = true) ∧
      p = lead ++ pystrip p ++ trail ∧
      apply_speech_style p = pystrip p ++ SPEECH_STYLE_SUFFIX := by
  rcases pystrip_decomp p with ⟨lead, trail, h1, h2, h3⟩
  exact ⟨lead, trail, h1, h2, h3, by rw [apply_speech_style, if_neg (by simp [h])]⟩

/-- Witness for the amended C9 at a concrete padded prompt. -/
theorem apply_speech_style_appends_after_strip_witness :
    containsSub STYLE_MARKER (("  hi ").data) = false ∧
    ∃ lead trail,
      (∀ c ∈ lead, isPyWs c = true) ∧ (∀ c ∈ trail, isPyWs c = true) ∧
      ("  hi ").data = lead ++ pystrip (("  hi ").data) ++ trail ∧
      apply_speech_style (("  hi ").data) =
        pystrip (("  hi ").data) ++ SPEECH_STYLE_SUFFIX :=
  ⟨by decide, apply_speech_style_appends_after_strip (("  hi ").data) (by decide)⟩

/-- C2: contrary to the claim, the trailing English run after the
terminal punctuation mark is NOT dropped — the doubled backslashes in
`tail_pattern` (and the other two patterns) demand literal backslash
characters, so none of them can match this text and
`normalize_tts_text` returns the spec's own example unchanged instead of
the claimed truncation to the punctuation mark. -/
theorem normalize_tts_text_trailing_english_kept :
    normalize_tts_text (("これは質問です。Thank you for your time").data) =
      ("これは質問です。Thank you for your time").data ∧
    ("これは質問です。Thank you for your time").data ≠
      ("これは質問です。").data := by
  exact ⟨by decide, by decide⟩

/-- C3: contrary to the claim, no line break is inserted after a
terminal punctuation mark followed by a non-whitespace character: the
doubled backslashes make the lookahead demand the two literal characters
backslash S, so the substitution never fires on ordinary text — the
full-width conversion of the question mark happens, but the output
contains no newline at all. -/
theorem normalize_tts_text_no_line_break :
    normalize_tts_text (("元気ですか?はい").data) = ("元気ですか？はい").data ∧
    (Char.ofNat 10 ∈ normalize_tts_text (("元気ですか?はい").data) → False) := by
  exact ⟨by decide, by decide⟩

/-- C8 counterexample: a purely Latin fragment is NOT returned
unchanged — `normalize_tts_text` replaces the ASCII question mark with
its full-width form before the script check is ever consulted. -/
theorem normalize_tts_text_latin_changed :
    normalize_tts_text (("Hi?").data) ≠ ("Hi?").data := by decide

/-- C8 amended: for fragments with no Japanese-script character, the
trailing-English stripping step is skipped (it returns its input
unchanged, also after the punctuation replacement, which cannot create a
Japanese character) — but `normalize_tts_text` still applies the
punctuation replacement and the two substitution passes to such
fragments. -/
theorem strip_skipped_for_non_japanese (s : Str) (h : s.any isJp = false) :
    strip_trailing_english s = s ∧
    normalize_tts_text s =
      collapseNewlines (insertBreaks
        (pyReplaceChar '!' '！' (pyReplaceChar '?' '？' s))) := by
  have hrep : (pyReplaceChar '!' '！' (pyReplaceChar '?' '？' s)).any isJp = false :=
    isJp_replace s h
  constructor
  · rw [strip_trailing_english, if_neg (by simp [h])]
  · by_cases hnil : s = []
    · subst hnil
      rfl
    · rw [normalize_tts_text, if_neg hnil,
        strip_trailing_english, if_neg (by simp [hrep])]

/-- Witness for the amended C8 at a concrete Latin fragment. -/
theorem strip_skipped_for_non_japanese_witness :
    (("abc?").data).any isJp = false ∧
    (strip_trailing_english (("abc?").data) = ("abc?").data ∧
     normalize_tts_text (("abc?").data) =
       collapseNewlines (insertBreaks
         (pyReplaceChar '!' '！' (pyReplaceChar '?' '？' (("abc?").data))))) :=
  ⟨by decide, strip_skipped_for_non_japanese (("abc?").data) (by decide)⟩

/-- C5: the streaming normalizer maps the fragment stream one to one —
the output sequence has the same length, and the fragment at every
position is `normalize_tts_text` of the input fragment at that same
position (so nothing is reordered, dropped, merged, or carried across
fragment boundaries). -/
theorem tts_node_streaming (F : List Str) :
    (tts_node F).length = F.length ∧
    ∀ i : Nat, (tts_node F)[i]? =
      Option.map normalize_tts_text (F[i]?) := by
  refine ⟨by simp [tts_node], fun i => ?_⟩
  simp [tts_node, List.getElem?_map]

/-- C7: `publish_chat` sends nothing when the extracted text is blank
after trimming, and every message it does emit carries the given role
and a non-empty trimmed text. -/
theorem publish_chat_blank_dropped (role : Str) (message : PyMessage) :
    (pystrip (extract_text message) = [] → publish_chat role message = none) ∧
    (∀ r t, publish_chat role message = some (r, t) →
      r = role ∧ t ≠ [] ∧ t = pystrip (extract_text message)) := by
  constructor
  · intro h
    simp [publish_chat, h]
  · intro r t h
    simp only [publish_chat] at h
    by_cases hb : pystrip (extract_text message) = []
    · rw [if_pos hb] at h
      cases h
    · rw [if_neg hb] at h
      injection h with h2
      injection h2 with ha hb2
      exact ⟨ha.symm, by rw [← hb2]; exact hb, hb2.symm⟩

/-- Witness for C7: the spec's example, a whitespace-only assistant
turn, produces no transcript message. -/
theorem publish_chat_blank_dropped_witness :
    publish_chat (("interviewer").data) (PyMessage.pystr (("  ").data)) = none :=
  (publish_chat_blank_dropped (("interviewer").data)
    (PyMessage.pystr (("  ").data))).1 (by decide)

/-- C10: a final user transcription without a transcript field, and an
assistant conversation item without text content, each publish nothing
(the handlers substitute the empty string and the blank check of
`publish_chat` drops it silently). -/
theorem missing_event_fields_publish_nothing :
    (∀ ev : UserTranscribedEvent, ev.is_final = true → ev.transcript = none →
      on_user_transcribed ev = none) ∧
    (∀ (ev : ConversationItemEvent) (item : ConversationItem),
      ev.item = some item → item.text_content = none →
      on_conversation_item_added ev = none) := by
  constructor
  · intro ev hf ht
    simp [on_user_transcribed, hf, ht, publish_chat, extract_text, pystrip,
      pyLstrip, pyRstrip]
  · intro ev item hi ht
    by_cases hr : item.role = some (("assistant").data)
    · simp [on_conversation_item_added, hi, hr, ht, publish_chat, extract_text,
        pystrip, pyLstrip, pyRstrip]
    · simp [on_conversation_item_added, hi, hr]

/-- Witness for C10 at concrete events missing the respective fields. -/
theorem missing_event_fields_publish_nothing_witness :
    on_user_transcribed ⟨true, none⟩ = none ∧
    on_conversation_item_added ⟨some ⟨some (("assistant").data), none⟩⟩ = none :=
  ⟨missing_event_fields_publish_nothing.1 ⟨true, none⟩ rfl rfl,
   missing_event_fields_publish_nothing.2
     ⟨some ⟨some (("assistant").data), none⟩⟩
     ⟨some (("assistant").data), none⟩ rfl rfl⟩
